import Mathlib

/-!
Verification development for the Pat-Vara VARA modem client (Go sources
`vara/vara.go`, `vara/listener.go`, `vara/connection.go`).

Shallow embedding notes:
* The two TCP sockets are modelled as `Option Nat` handles on the `Modem`
  record (the Go `*net.TCPConn` pointers), together with a `World` record
  holding the shared resources: the buffered capacity-1 channel
  `connectChange` (`slot`, a list of length at most one) and the set of
  open socket ids (`opened`).  Copying a `Modem` value (as the Go facade
  `varaDataConn{*m.dataConn, *m}` does) copies the handles but not the
  shared `World`.
* TCP connect and command writes are modelled on their success path (the
  Go error returns for network failures are external nondeterminism the
  claims do not touch); commands written to the command channel are
  returned as a trace `List String`, PTT signals as a trace `List Bool`.
* A send on the capacity-1 channel blocks when the slot is full; blocking
  operations are modelled as returning `none`.
* The blocking receives inside `DialURL`, `Accept` and `Close` split those
  functions at the receive: the receive's resolution is the slot's pending
  value when there is one, otherwise an externally supplied event
  (`Option CState`; `none` means no event ever arrives, i.e. the receive
  blocks / times out).
-/

namespace PatVara

/-- `connectedState` from vara.go: the two connection states. -/
inductive CState where
  | connected
  | disconnected
deriving DecidableEq, Repr

/-- The `Modem` struct of vara.go restricted to the fields the claims touch.
`cmdConn`/`dataConn` are the nullable TCP handles (socket ids); `rigSet`
records whether a PTT controller is injected (`m.rig != nil`).  The
`ModemConfig` (host/ports) only feeds the TCP dial and is omitted. -/
structure Modem where
  scheme : String
  myCall : String
  cmdConn : Option Nat
  dataConn : Option Nat
  toCall : String
  busy : Bool
  lastState : CState
  rigSet : Bool
deriving DecidableEq, Repr

/-- Shared resources referenced (not owned by value) by a `Modem`: the
capacity-1 `connectChange` channel buffer and the set of open TCP
sockets, plus a fresh-id counter for `net.DialTCP`. -/
structure World where
  slot : List CState
  opened : List Nat
  nextSock : Nat
deriving DecidableEq, Repr

/-- `var bandwidths = []string{"500", "2300", "2750"}` from vara.go. -/
def bandwidths : List String := ["500", "2300", "2750"]

/-- The `contains` helper of connection.go (linear scan). -/
def contains (c : List String) (s : String) : Bool :=
  match c with
  | [] => false
  | e :: rest => if e = s then true else contains rest s

/-- `NewModem` from vara.go: fresh client stub, disconnected, no channels,
empty buffered `connectChange`. -/
def NewModem (scheme : String) (myCall : String) : Modem :=
  { scheme := scheme, myCall := myCall, cmdConn := none, dataConn := none,
    toCall := "", busy := false, lastState := CState.disconnected, rigSet := false }

/-- The world at session creation: empty notification slot, no sockets. -/
def initialWorld : World :=
  { slot := [], opened := [], nextSock := 0 }

/-- `connectTCP` (success path): allocate a fresh open socket id. -/
def connectTCP (w : World) : Nat × World :=
  (w.nextSock, { w with opened := w.nextSock :: w.opened, nextSock := w.nextSock + 1 })

/-- `disconnectTCP` from vara.go: close the socket if the handle is
non-nil (the caller stores `nil` back into the handle field). -/
def disconnectTCP (w : World) (sock : Option Nat) : World :=
  match sock with
  | none => w
  | some i => { w with opened := w.opened.erase i }

/-- `sendPTT` from vara.go: the keying signal reaches the controller only
when one is injected. -/
def sendPTT (m : Modem) (b : Bool) : List Bool :=
  if m.rigSet then [b] else []

/-- Send on the capacity-1 `connectChange` channel: succeeds only when the
buffer has room, otherwise the sender blocks (`none`). -/
def publish (w : World) (v : CState) : Option World :=
  match w.slot with
  | [] => some { w with slot := [v] }
  | _ :: _ => none

/-- Receive on `connectChange`: a buffered value is taken immediately;
otherwise the resolution is the externally arriving event `ev`
(`none` = nothing ever arrives, the receive blocks). -/
def recv (w : World) (ev : Option CState) : Option (CState × World) :=
  match w.slot with
  | v :: rest => some (v, { w with slot := rest })
  | [] =>
    match ev with
    | some v => some (v, w)
    | none => none

/-- `start` from vara.go (success path): open the command socket if absent,
spawn the reader (not part of the state), open the data socket if absent,
clear the busy flag, then write `PUBLIC ON`, `CWID ON` (HF variant only),
`COMPRESSION TEXT`, `MYCALL <myCall>`. -/
def start (m : Modem) (w : World) : Modem × World × List String :=
  let p1 :=
    match m.cmdConn with
    | none =>
      let a := connectTCP w
      ({ m with cmdConn := some a.1 }, a.2)
    | some _ => (m, w)
  let p2 :=
    match p1.1.dataConn with
    | none =>
      let a := connectTCP p1.2
      ({ p1.1 with dataConn := some a.1 }, a.2)
    | some _ => p1
  let m3 := { p2.1 with busy := false }
  (m3, p2.2,
    ["PUBLIC ON"]
      ++ (if m3.scheme = "varahf" then ["CWID ON"] else [])
      ++ ["COMPRESSION TEXT", "MYCALL " ++ m3.myCall])

/-- `handleConnect` from vara.go: record Connected, publish Connected to the
notification slot (blocking when the slot is full).  Note it does not
touch `toCall`. -/
def handleConnect (m : Modem) (w : World) : Option (Modem × World) :=
  match publish w CState.connected with
  | none => none
  | some w1 => some ({ m with lastState := CState.connected }, w1)

/-- `handleDisconnect` from vara.go: record Disconnected, publish
Disconnected (blocking when the slot is full), close both sockets, null
both handles, clear `toCall` and `busy`. -/
def handleDisconnect (m : Modem) (w : World) : Option (Modem × World) :=
  match publish w CState.disconnected with
  | none => none
  | some w1 =>
    let w2 := disconnectTCP w1 m.dataConn
    let w3 := disconnectTCP w2 m.cmdConn
    some ({ m with
              lastState := CState.disconnected
              dataConn := none
              cmdConn := none
              toCall := ""
              busy := false }, w3)

/-- `strings.HasPrefix` modelled over character lists (structural
recursion, so that it computes by reduction). -/
def charsStart : List Char → List Char → Bool
  | _, [] => true
  | [], _ :: _ => false
  | a :: as, p :: ps => if a = p then charsStart as ps else false

/-- `strings.HasPrefix s p`. -/
def strStarts (s : String) (p : String) : Bool :=
  charsStart s.data p.data

/-- `handleCmd` from vara.go: dispatch one line from the modem.  The `Bool`
result is Go's "keep listening" flag; the `List Bool` is the PTT signal
trace.  Exact matches first (the Go `switch`), then the `default:` branch
with its three ordered `strings.HasPrefix` tests. -/
def handleCmd (m : Modem) (w : World) (c : String) : Option (Modem × World × Bool × List Bool) :=
  if c = "PTT ON" then some (m, w, true, sendPTT m true)
  else if c = "PTT OFF" then some (m, w, true, sendPTT m false)
  else if c = "BUSY ON" then some ({ m with busy := true }, w, true, [])
  else if c = "BUSY OFF" then some ({ m with busy := false }, w, true, [])
  else if c = "OK" then some (m, w, true, [])
  else if c = "IAMALIVE" then some (m, w, true, [])
  else if c = "PENDING" then some (m, w, true, [])
  else if c = "DISCONNECTED" then
    match handleDisconnect m w with
    | none => none
    | some p => some (p.1, p.2, false, [])
  else if strStarts c "CONNECTED" then
    match handleConnect m w with
    | none => none
    | some p => some (p.1, p.2, true, [])
  else if strStarts c "BUFFER" then some (m, w, true, [])
  else if strStarts c "REGISTERED" then some (m, w, true, [])
  else some (m, w, true, [])

/-- The `Addr` type of listener.go: call sign plus scheme tag. -/
structure Addr where
  call : String
  scheme : String
deriving DecidableEq, Repr

/-- The `varaDataConn` facade of connection.go: a by-value copy of the data
socket handle and of the whole `Modem` (`varaDataConn{*m.dataConn, *m}`). -/
structure VaraDataConn where
  dataSock : Option Nat
  modem : Modem
deriving DecidableEq, Repr

/-- Facade construction as performed by `DialURL` and `Accept`. -/
def mkVaraDataConn (m : Modem) : VaraDataConn :=
  { dataSock := m.dataConn, modem := m }

/-- `varaDataConn.LocalAddr` from connection.go. -/
def VaraDataConn.LocalAddr (v : VaraDataConn) : Addr :=
  { call := v.modem.myCall, scheme := v.modem.scheme }

/-- `varaDataConn.RemoteAddr` from connection.go. -/
def VaraDataConn.RemoteAddr (v : VaraDataConn) : Addr :=
  { call := v.modem.toCall, scheme := v.modem.scheme }

/-- Error results of `DialURL`: `transport.ErrUnsupportedScheme`, or the
configuration error from `setBandwidth`. -/
inductive DialErr where
  | unsupportedScheme
  | config (msg : String)
deriving DecidableEq, Repr

/-- `setBandwidth` from connection.go: empty parameter means "unset" and is
accepted silently; values outside `bandwidths` produce the configuration
error; supported values emit the `BW<value>` command. -/
def setBandwidth (bw : String) : List String × Option String :=
  if bw = "" then ([], none)
  else if contains bandwidths bw = false then
    ([], some ("bandwidth " ++ bw ++ " not supported"))
  else (["BW" ++ bw], none)

/-- The part of `DialURL` (connection.go) up to and including the write of
the `CONNECT` command, i.e. everything before the blocking receive on
`connectChange`.  Returns the updated modem and world, the trace of
commands written, and the error result if the dial failed early. -/
def DialURL_begin (m : Modem) (w : World) (urlScheme : String) (target : String)
    (bw : String) (p2p : Bool) : Modem × World × List String × Option DialErr :=
  if urlScheme ≠ m.scheme then (m, w, [], some DialErr.unsupportedScheme)
  else
    let s := start m w
    match setBandwidth bw with
    | (tb, some e) => (s.1, s.2.1, s.2.2 ++ tb, some (DialErr.config e))
    | (tb, none) =>
      let ts :=
        if s.1.scheme = "varahf" then
          (if p2p then ["P2P SESSION"] else ["WINLINK SESSION"])
        else []
      let m2 := { s.1 with toCall := target }
      (m2, s.2.1,
        s.2.2 ++ tb ++ ts ++ ["CONNECT " ++ m2.myCall ++ " " ++ target], none)

/-- The tail of `DialURL` after the blocking receive: on anything but
Connected, null the data handle and fail (`none` facade); on Connected,
hand out the facade built from a by-value copy of the modem. -/
def DialURL_finish (m : Modem) (w : World) (ev : Option CState) :
    Option (Modem × World × Option VaraDataConn) :=
  match recv w ev with
  | none => none
  | some r =>
    if r.1 ≠ CState.connected then some ({ m with dataConn := none }, r.2, none)
    else some (m, r.2, some (mkVaraDataConn m))

/-- `Accept` from listener.go: identical body to the tail of `DialURL` —
block on `connectChange`, fail on non-Connected, otherwise hand out the
facade copy. -/
def Accept (m : Modem) (w : World) (ev : Option CState) :
    Option (Modem × World × Option VaraDataConn) :=
  match recv w ev with
  | none => none
  | some r =>
    if r.1 ≠ CState.connected then some ({ m with dataConn := none }, r.2, none)
    else some (m, r.2, some (mkVaraDataConn m))

/-- `Listen` from listener.go: `start` then `LISTEN ON`. -/
def Listen (m : Modem) (w : World) : Modem × World × List String :=
  let s := start m w
  (s.1, s.2.1, s.2.2 ++ ["LISTEN ON"])

/-- `Busy` from connection.go. -/
def Busy (m : Modem) : Bool := m.busy

/-- The `time.Second * 10` wait in `Close` (vara.go). -/
def disconnectWaitSeconds : Nat := 10

/-- `Close` from vara.go.  When Connected: write `DISCONNECT` (the handle is
checked for nil first), then the `select` — a buffered or arriving value
resolves the receive (anything but Disconnected escalates to `ABORT`),
no value within `disconnectWaitSeconds` escalates to `ABORT`.  In every
case: PTT off, then `handleDisconnect` (which blocks, `none`, if the
notification slot is full). -/
def Close (m : Modem) (w : World) (ev : Option CState) :
    Option (Modem × World × List String × List Bool) :=
  if m.lastState = CState.connected then
    match recv w ev with
    | some p =>
      match handleDisconnect m p.2 with
      | none => none
      | some q =>
        some (q.1, q.2,
          (if m.cmdConn ≠ none then ["DISCONNECT"] else [])
            ++ (if p.1 ≠ CState.disconnected then ["ABORT"] else []),
          sendPTT m false)
    | none =>
      match handleDisconnect m w with
      | none => none
      | some q =>
        some (q.1, q.2,
          (if m.cmdConn ≠ none then ["DISCONNECT"] else []) ++ ["ABORT"],
          sendPTT m false)
  else
    match handleDisconnect m w with
    | none => none
    | some q => some (q.1, q.2, [], sendPTT m false)

/-- `varaDataConn.Close` from connection.go: delegate to `Modem.Close` on
the facade's by-value modem copy. -/
def VaraDataConn.Close (v : VaraDataConn) (w : World) (ev : Option CState) :
    Option (Modem × World × List String × List Bool) :=
  PatVara.Close v.modem w ev

/-- One externally observable operation on a session, used to quantify over
all operation sequences.  The `ev` arguments are the resolutions of the
blocking receives (see `recv`); `eventLine` is one line dispatched by the
reader goroutine (possible only while the command socket is open, since
`cmdListen` returns as soon as `m.cmdConn` is nil or closed). -/
inductive Op where
  | startOp
  | listenOp
  | dialBegin (urlScheme : String) (target : String) (bw : String) (p2p : Bool)
  | dialFinish (ev : Option CState)
  | acceptOp (ev : Option CState)
  | closeOp (ev : Option CState)
  | eventLine (c : String)
deriving Repr

/-- Effect of one operation on the session-plus-shared-world state; a
blocked operation (`none` result) leaves the state as it was. -/
def step : Modem × World → Op → Modem × World
  | (m, w), Op.startOp => ((start m w).1, (start m w).2.1)
  | (m, w), Op.listenOp => ((Listen m w).1, (Listen m w).2.1)
  | (m, w), Op.dialBegin sc t bw p =>
    ((DialURL_begin m w sc t bw p).1, (DialURL_begin m w sc t bw p).2.1)
  | (m, w), Op.dialFinish ev =>
    match DialURL_finish m w ev with
    | none => (m, w)
    | some r => (r.1, r.2.1)
  | (m, w), Op.acceptOp ev =>
    match Accept m w ev with
    | none => (m, w)
    | some r => (r.1, r.2.1)
  | (m, w), Op.closeOp ev =>
    match Close m w ev with
    | none => (m, w)
    | some r => (r.1, r.2.1)
  | (m, w), Op.eventLine c =>
    if m.cmdConn = none then (m, w)
    else
      match handleCmd m w c with
      | none => (m, w)
      | some r => (r.1, r.2.1)

/-- Run a sequence of operations from a state. -/
def run (s : Modem × World) (ops : List Op) : Modem × World :=
  ops.foldl step s

/-- The channel-handle invariant that actually holds at every reachable
state: the data socket handle is non-null only while the command socket
handle is non-null. -/
def connInv : Modem × World → Prop
  | (m, _) => m.dataConn ≠ none → m.cmdConn ≠ none

/-- Shorthand: the session right after `DialURL_begin` has dialed `N0CALL`
over the HF scheme (used in the C5 scenario). -/
def hfDialed (me : String) : Modem :=
  { NewModem "varahf" me with cmdConn := some 0, dataConn := some 1, toCall := "N0CALL" }

/-- Shorthand: `hfDialed` after the CONNECTED event. -/
def hfConnected (me : String) : Modem :=
  { hfDialed me with lastState := CState.connected }

/-- Shorthand: the listening session of the C2 scenario. -/
def vListening : Modem :=
  { NewModem "vara" "N1CALL" with cmdConn := some 0, dataConn := some 1 }

/-- Shorthand: `vListening` after the inbound CONNECTED event. -/
def vAccepted : Modem :=
  { vListening with lastState := CState.connected }

/-- The session fields as `handleDisconnect` leaves them. -/
def teardownModem (m : Modem) : Modem :=
  { m with lastState := CState.disconnected, dataConn := none, cmdConn := none, toCall := "", busy := false }

/-- The shared world as `handleDisconnect` leaves it when the notification
slot was empty: Disconnected published, both sockets closed. -/
def teardownWorld (m : Modem) (wo : List Nat) (wn : Nat) : World :=
  disconnectTCP (disconnectTCP ⟨[CState.disconnected], wo, wn⟩ m.dataConn) m.cmdConn

section Lemmas

theorem start_trace (m : Modem) (w : World) :
    (start m w).2.2 = ["PUBLIC ON"]
      ++ (if m.scheme = "varahf" then ["CWID ON"] else [])
      ++ ["COMPRESSION TEXT", "MYCALL " ++ m.myCall] := by
  unfold start
  rcases hc : m.cmdConn with _ | i <;> rcases hd : m.dataConn with _ | j <;>
    simp [hc, hd, connectTCP]

theorem start_modem_cmdConn (m : Modem) (w : World) : (start m w).1.cmdConn ≠ none := by
  unfold start
  rcases hc : m.cmdConn with _ | i <;> rcases hd : m.dataConn with _ | j <;>
    simp [hc, hd, connectTCP]

theorem start_modem_dataConn (m : Modem) (w : World) : (start m w).1.dataConn ≠ none := by
  unfold start
  rcases hc : m.cmdConn with _ | i <;> rcases hd : m.dataConn with _ | j <;>
    simp [hc, hd, connectTCP]

theorem start_modem_scheme (m : Modem) (w : World) : (start m w).1.scheme = m.scheme := by
  unfold start
  rcases hc : m.cmdConn with _ | i <;> rcases hd : m.dataConn with _ | j <;>
    simp [hc, hd, connectTCP]

theorem start_modem_myCall (m : Modem) (w : World) : (start m w).1.myCall = m.myCall := by
  unfold start
  rcases hc : m.cmdConn with _ | i <;> rcases hd : m.dataConn with _ | j <;>
    simp [hc, hd, connectTCP]

theorem bw_ne_public (bw : String) : ("BW" ++ bw) ≠ "PUBLIC ON" := by
  intro h
  have h2 := congrArg String.data h
  simp only [String.data_append] at h2
  simp at h2

theorem bw_ne_cwid (bw : String) : ("BW" ++ bw) ≠ "CWID ON" := by
  intro h
  have h2 := congrArg String.data h
  simp only [String.data_append] at h2
  simp at h2

theorem bw_ne_compression (bw : String) : ("BW" ++ bw) ≠ "COMPRESSION TEXT" := by
  intro h
  have h2 := congrArg String.data h
  simp only [String.data_append] at h2
  simp at h2

theorem bw_ne_mycall (bw s : String) : ("BW" ++ bw) ≠ "MYCALL " ++ s := by
  intro h
  have h2 := congrArg String.data h
  simp only [String.data_append] at h2
  simp at h2

theorem connect_ne_public (a b : String) : ("CONNECT " ++ a ++ " " ++ b) ≠ "PUBLIC ON" := by
  intro h
  have h2 := congrArg String.data h
  simp only [String.data_append] at h2
  simp at h2

theorem connect_ne_cwid (a b : String) : ("CONNECT " ++ a ++ " " ++ b) ≠ "CWID ON" := by
  intro h
  have h2 := congrArg String.data h
  simp only [String.data_append] at h2
  simp at h2

theorem connect_ne_compression (a b : String) :
    ("CONNECT " ++ a ++ " " ++ b) ≠ "COMPRESSION TEXT" := by
  intro h
  have h2 := congrArg String.data h
  simp only [String.data_append] at h2
  simp at h2

theorem connect_ne_mycall (a b s : String) :
    ("CONNECT " ++ a ++ " " ++ b) ≠ "MYCALL " ++ s := by
  intro h
  have h2 := congrArg String.data h
  simp only [String.data_append] at h2
  simp at h2

theorem bw_cmd_not_in_start (m : Modem) (w : World) (bw : String) :
    ("BW" ++ bw) ∉ (start m w).2.2 := by
  rw [start_trace]
  by_cases hs : m.scheme = "varahf" <;>
    simp [hs, bw_ne_public bw, bw_ne_cwid bw, bw_ne_compression bw, bw_ne_mycall bw m.myCall]

theorem connect_cmd_not_in_start (m : Modem) (w : World) (a b : String) :
    ("CONNECT " ++ a ++ " " ++ b) ∉ (start m w).2.2 := by
  rw [start_trace]
  by_cases hs : m.scheme = "varahf" <;>
    simp [hs, connect_ne_public a b, connect_ne_cwid a b, connect_ne_compression a b,
      connect_ne_mycall a b m.myCall]

end Lemmas

/-- C5: dialing `N0CALL` with bandwidth `2300` on the HF scheme (non-p2p)
writes exactly `PUBLIC ON`, `CWID ON`, `COMPRESSION TEXT`, `MYCALL <me>`,
`BW2300`, `WINLINK SESSION`, `CONNECT <me> N0CALL`, in that order; a
subsequent inbound `CONNECTED N0CALL` event publishes Connected, and the
blocked dial completes with a facade and session state Connected. -/
theorem C5_hf_dial_scenario (me : String) :
    DialURL_begin (NewModem "varahf" me) initialWorld "varahf" "N0CALL" "2300" false =
      (hfDialed me, { slot := [], opened := [1, 0], nextSock := 2 },
        ["PUBLIC ON", "CWID ON", "COMPRESSION TEXT", "MYCALL " ++ me, "BW" ++ "2300",
          "WINLINK SESSION", "CONNECT " ++ me ++ " " ++ "N0CALL"], none) ∧
    handleCmd (hfDialed me) { slot := [], opened := [1, 0], nextSock := 2 }
        "CONNECTED N0CALL" =
      some (hfConnected me,
        { slot := [CState.connected], opened := [1, 0], nextSock := 2 }, true, []) ∧
    DialURL_finish (hfConnected me)
        { slot := [CState.connected], opened := [1, 0], nextSock := 2 } none =
      some (hfConnected me, { slot := [], opened := [1, 0], nextSock := 2 },
        some (mkVaraDataConn (hfConnected me))) ∧
    (hfConnected me).lastState = CState.connected := by
  exact ⟨rfl, rfl, rfl, rfl⟩

/-- C9: a dial whose URL scheme differs from the session's scheme tag fails
with the unsupported-scheme error before any other action: no command is
written, no channel opened, and the session and shared state are returned
unchanged. -/
theorem C9_scheme_guard (m : Modem) (w : World) (urlScheme target bw : String)
    (p2p : Bool) (h : urlScheme ≠ m.scheme) :
    DialURL_begin m w urlScheme target bw p2p = (m, w, [], some DialErr.unsupportedScheme) := by
  unfold DialURL_begin
  rw [if_pos h]

/-- C9 witness. -/
theorem C9_scheme_guard_witness :
    DialURL_begin (NewModem "vara" "N1CALL") initialWorld "varahf" "N0CALL" "" false =
      (NewModem "vara" "N1CALL", initialWorld, [], some DialErr.unsupportedScheme) :=
  C9_scheme_guard (NewModem "vara" "N1CALL") initialWorld "varahf" "N0CALL" "" false
    (by decide)

/-- C4: a `DISCONNECTED` line processed while Connected (with the
notification slot drained by the waiting operation) drives the state to
Disconnected, nulls both channel handles, clears the busy flag and the
remote call sign, publishes Disconnected to the notification slot, and
returns `false`, stopping the Event Reader — whatever operation waits. -/
theorem C4_disconnected_event (m : Modem) (w : World)
    (_hconn : m.lastState = CState.connected) (hslot : w.slot = []) :
    ∃ w', handleCmd m w "DISCONNECTED" =
        some ({ m with
                  lastState := CState.disconnected
                  dataConn := none
                  cmdConn := none
                  toCall := ""
                  busy := false }, w', false, []) ∧
      w'.slot = [CState.disconnected] := by
  rcases w with ⟨ws, wo, wn⟩
  simp only at hslot
  subst hslot
  refine ⟨disconnectTCP (disconnectTCP ⟨[CState.disconnected], wo, wn⟩ m.dataConn) m.cmdConn,
    rfl, ?_⟩
  rcases m.dataConn with _ | i <;> rcases m.cmdConn with _ | j <;> simp [disconnectTCP]

/-- C4 witness. -/
theorem C4_disconnected_event_witness :
    ∃ w', handleCmd (hfConnected "N1CALL") { slot := [], opened := [1, 0], nextSock := 2 }
        "DISCONNECTED" =
      some ({ hfConnected "N1CALL" with
                lastState := CState.disconnected
                dataConn := none
                cmdConn := none
                toCall := ""
                busy := false }, w', false, []) ∧
      w'.slot = [CState.disconnected] :=
  C4_disconnected_event (hfConnected "N1CALL")
    { slot := [], opened := [1, 0], nextSock := 2 } (by decide) (by decide)

/-- C6: `close()` while Connected with an empty notification slot: if no
event ever arrives it writes `DISCONNECT`, waits the fixed 10-second
timeout, then writes `ABORT`; if the slot instead resolves to anything
other than Disconnected it likewise escalates to `ABORT`. -/
theorem C6_close_escalation (m : Modem) (w : World) (i : Nat)
    (hconn : m.lastState = CState.connected) (hcmd : m.cmdConn = some i)
    (hslot : w.slot = []) :
    disconnectWaitSeconds = 10 ∧
    (∃ r, Close m w none = some r ∧ r.2.2.1 = ["DISCONNECT", "ABORT"]) ∧
    (∀ v, v ≠ CState.disconnected →
      ∃ r, Close m w (some v) = some r ∧ r.2.2.1 = ["DISCONNECT", "ABORT"]) := by
  rcases w with ⟨ws, wo, wn⟩
  simp only at hslot
  subst hslot
  refine ⟨rfl, ?_, ?_⟩
  · refine ⟨(teardownModem m, teardownWorld m wo wn, ["DISCONNECT", "ABORT"],
      sendPTT m false), ?_, rfl⟩
    simp [Close, hconn, hcmd, recv, handleDisconnect, publish, teardownModem, teardownWorld]
  · intro v hv
    refine ⟨(teardownModem m, teardownWorld m wo wn, ["DISCONNECT", "ABORT"],
      sendPTT m false), ?_, rfl⟩
    simp [Close, hconn, hcmd, recv, hv, handleDisconnect, publish, teardownModem, teardownWorld]

/-- C6 witness. -/
theorem C6_close_escalation_witness :
    disconnectWaitSeconds = 10 ∧
    (∃ r, Close (hfConnected "N1CALL") { slot := [], opened := [1, 0], nextSock := 2 } none =
      some r ∧ r.2.2.1 = ["DISCONNECT", "ABORT"]) ∧
    (∀ v, v ≠ CState.disconnected →
      ∃ r, Close (hfConnected "N1CALL") { slot := [], opened := [1, 0], nextSock := 2 }
        (some v) = some r ∧ r.2.2.1 = ["DISCONNECT", "ABORT"]) :=
  C6_close_escalation (hfConnected "N1CALL") { slot := [], opened := [1, 0], nextSock := 2 }
    0 (by decide) (by decide) (by decide)

/-- C1 counterexample: with the unsupported bandwidth `9999` the dial does
fail with the configuration error, but only after it has written the
three negotiation commands and opened both channels — refuting "issues
no network command and opens no channel". -/
theorem C1_counterexample :
    DialURL_begin (NewModem "vara" "N1CALL") initialWorld "vara" "N0CALL" "9999" false =
      ({ NewModem "vara" "N1CALL" with cmdConn := some 0, dataConn := some 1 },
        { slot := [], opened := [1, 0], nextSock := 2 },
        ["PUBLIC ON", "COMPRESSION TEXT", "MYCALL N1CALL"],
        some (DialErr.config "bandwidth 9999 not supported")) ∧
    ["PUBLIC ON", "COMPRESSION TEXT", "MYCALL N1CALL"] ≠ ([] : List String) ∧
    ({ NewModem "vara" "N1CALL" with cmdConn := some 0, dataConn := some 1 } : Modem).cmdConn
      ≠ none := by
  decide

/-- C1 (amended): an unsupported non-empty bandwidth makes the dial fail
with the configuration error only after `start` has run (channels opened,
negotiation commands written); the trace contains no `BW` and no
`CONNECT` command.  Every supported bandwidth yields the `BW<value>`
command strictly before the `CONNECT` command. -/
theorem C1_bandwidth_check (m : Modem) (w : World) (target bw : String) (p2p : Bool)
    (hbw : contains bandwidths bw = false) (hne : bw ≠ "") :
    (DialURL_begin m w m.scheme target bw p2p =
        ((start m w).1, (start m w).2.1, (start m w).2.2,
          some (DialErr.config ("bandwidth " ++ bw ++ " not supported"))) ∧
      ("BW" ++ bw) ∉ (start m w).2.2 ∧
      ("CONNECT " ++ m.myCall ++ " " ++ target) ∉ (start m w).2.2) ∧
    (∀ bw2, contains bandwidths bw2 = true →
      DialURL_begin m w m.scheme target bw2 p2p =
        ({ (start m w).1 with toCall := target }, (start m w).2.1,
          (start m w).2.2 ++ ["BW" ++ bw2]
            ++ (if m.scheme = "varahf" then
                  (if p2p then ["P2P SESSION"] else ["WINLINK SESSION"]) else [])
            ++ ["CONNECT " ++ m.myCall ++ " " ++ target], none)) := by
  constructor
  · refine ⟨?_, bw_cmd_not_in_start m w bw, connect_cmd_not_in_start m w m.myCall target⟩
    simp [DialURL_begin, setBandwidth, hbw, hne]
  · intro bw2 hbw2
    have hne2 : bw2 ≠ "" := by
      intro he
      rw [he] at hbw2
      simp [contains, bandwidths] at hbw2
    simp [DialURL_begin, setBandwidth, hbw2, hne2, start_modem_scheme, start_modem_myCall]

/-- C1 witness. -/
theorem C1_bandwidth_check_witness :
    (DialURL_begin (NewModem "vara" "N1CALL") initialWorld
        (NewModem "vara" "N1CALL").scheme "N0CALL" "9999" false =
        ((start (NewModem "vara" "N1CALL") initialWorld).1,
          (start (NewModem "vara" "N1CALL") initialWorld).2.1,
          (start (NewModem "vara" "N1CALL") initialWorld).2.2,
          some (DialErr.config ("bandwidth " ++ "9999" ++ " not supported"))) ∧
      ("BW" ++ "9999") ∉ (start (NewModem "vara" "N1CALL") initialWorld).2.2 ∧
      ("CONNECT " ++ (NewModem "vara" "N1CALL").myCall ++ " " ++ "N0CALL") ∉
        (start (NewModem "vara" "N1CALL") initialWorld).2.2) ∧
    (∀ bw2, contains bandwidths bw2 = true →
      DialURL_begin (NewModem "vara" "N1CALL") initialWorld
          (NewModem "vara" "N1CALL").scheme "N0CALL" bw2 false =
        ({ (start (NewModem "vara" "N1CALL") initialWorld).1 with toCall := "N0CALL" },
          (start (NewModem "vara" "N1CALL") initialWorld).2.1,
          (start (NewModem "vara" "N1CALL") initialWorld).2.2 ++ ["BW" ++ bw2]
            ++ (if (NewModem "vara" "N1CALL").scheme = "varahf" then
                  (if false then ["P2P SESSION"] else ["WINLINK SESSION"]) else [])
            ++ ["CONNECT " ++ (NewModem "vara" "N1CALL").myCall ++ " " ++ "N0CALL"],
          none)) :=
  C1_bandwidth_check (NewModem "vara" "N1CALL") initialWorld "N0CALL" "9999" false
    (by decide) (by decide)

/-- C2 counterexample: `listen()`, then an inbound `CONNECTED REMOTE1`
published before any `accept()`: the subsequent `accept()` does return
immediately (no further event is needed), but the returned facade's
remote address is not `REMOTE1` — `handleConnect` never records the
remote call sign, so the address carries the empty call sign. -/
theorem C2_counterexample :
    Listen (NewModem "vara" "N1CALL") initialWorld =
      (vListening, { slot := [], opened := [1, 0], nextSock := 2 },
        ["PUBLIC ON", "COMPRESSION TEXT", "MYCALL N1CALL", "LISTEN ON"]) ∧
    handleCmd vListening { slot := [], opened := [1, 0], nextSock := 2 }
        "CONNECTED REMOTE1" =
      some (vAccepted,
        { slot := [CState.connected], opened := [1, 0], nextSock := 2 }, true, []) ∧
    Accept vAccepted { slot := [CState.connected], opened := [1, 0], nextSock := 2 } none =
      some (vAccepted, { slot := [], opened := [1, 0], nextSock := 2 },
        some (mkVaraDataConn vAccepted)) ∧
    (mkVaraDataConn vAccepted).RemoteAddr ≠ ({ call := "REMOTE1", scheme := "vara" } : Addr) := by
  decide

/-- C2 (amended): after `listen()` and an inbound `CONNECTED REMOTE1`
published before any `accept()`, the subsequent `accept()` returns
immediately (the single-slot notification retains the already-published
Connected value), but the returned facade's `remoteAddress()` carries the
session's remote call sign field, which is still empty: the CONNECTED
handler does not parse the caller's call sign. -/
theorem C2_accept_empty_remote :
    Listen (NewModem "vara" "N1CALL") initialWorld =
      (vListening, { slot := [], opened := [1, 0], nextSock := 2 },
        ["PUBLIC ON", "COMPRESSION TEXT", "MYCALL N1CALL", "LISTEN ON"]) ∧
    handleCmd vListening { slot := [], opened := [1, 0], nextSock := 2 }
        "CONNECTED REMOTE1" =
      some (vAccepted,
        { slot := [CState.connected], opened := [1, 0], nextSock := 2 }, true, []) ∧
    Accept vAccepted { slot := [CState.connected], opened := [1, 0], nextSock := 2 } none =
      some (vAccepted, { slot := [], opened := [1, 0], nextSock := 2 },
        some (mkVaraDataConn vAccepted)) ∧
    (mkVaraDataConn vAccepted).RemoteAddr = ({ call := "", scheme := "vara" } : Addr) ∧
    vAccepted.toCall = "" := by
  decide

/-- C7 counterexample: a first `close()` while Disconnected returns, but it
publishes Disconnected into the notification slot; the immediately
following `close()` — still while Disconnected — blocks forever inside
the teardown's publish (no normal return), so close on a disconnected
session is not idempotent and does not always "return no error". -/
theorem C7_counterexample :
    Close (NewModem "vara" "N1CALL") initialWorld none =
      some (NewModem "vara" "N1CALL",
        { slot := [CState.disconnected], opened := [], nextSock := 0 }, [], []) ∧
    Close (NewModem "vara" "N1CALL")
      { slot := [CState.disconnected], opened := [], nextSock := 0 } none = none := by
  decide

/-- C7 (amended): `close()` while Disconnected with an empty notification
slot returns without error, writes no command, signals PTT off and leaves
the state Disconnected with both handles null — but it also publishes
Disconnected into the notification slot, and any close while the slot
still holds a value blocks inside the teardown's publish, so the
operation is not idempotent. -/
theorem C7_close_disconnected (m : Modem) (w : World)
    (hdisc : m.lastState = CState.disconnected) (hslot : w.slot = []) :
    (∃ w', Close m w none = some (teardownModem m, w', [], sendPTT m false) ∧
      w'.slot = [CState.disconnected]) ∧
    (∀ (m2 : Modem) (w2 : World) (ev : Option CState),
      m2.lastState = CState.disconnected → w2.slot ≠ [] → Close m2 w2 ev = none) := by
  constructor
  · rcases w with ⟨ws, wo, wn⟩
    simp only at hslot
    subst hslot
    refine ⟨teardownWorld m wo wn, ?_, ?_⟩
    · simp [Close, hdisc, handleDisconnect, publish, teardownModem, teardownWorld]
    · unfold teardownWorld
      rcases m.dataConn with _ | i <;> rcases m.cmdConn with _ | j <;> simp [disconnectTCP]
  · intro m2 w2 ev h2 hne
    rcases hw2 : w2.slot with _ | ⟨v, rest⟩
    · exact absurd hw2 hne
    · simp [Close, h2, handleDisconnect, publish, hw2]

/-- C7 witness. -/
theorem C7_close_disconnected_witness :
    (∃ w', Close (NewModem "vara" "N1CALL") initialWorld none =
        some (teardownModem (NewModem "vara" "N1CALL"), w', [],
          sendPTT (NewModem "vara" "N1CALL") false) ∧
      w'.slot = [CState.disconnected]) ∧
    (∀ (m2 : Modem) (w2 : World) (ev : Option CState),
      m2.lastState = CState.disconnected → w2.slot ≠ [] → Close m2 w2 ev = none) :=
  C7_close_disconnected (NewModem "vara" "N1CALL") initialWorld (by decide) (by decide)

/-- C10: the facade handed out by dial/accept captures a by-value copy of
the session (`varaDataConn{*m.dataConn, *m}`), so `close()` on the facade
runs the teardown on that copy: the copy comes back reset while the
original session value keeps its connected-state fields — yet the shared
notification slot now holds Disconnected and both shared TCP sockets are
closed. -/
theorem C10_facade_close_frame (m : Modem) (w : World) (ev : Option CState) (i j : Nat)
    (hst : m.lastState = CState.connected) (hcmd : m.cmdConn = some i)
    (hdata : m.dataConn = some j) (hslot : w.slot = []) (hnd : w.opened.Nodup) :
    (mkVaraDataConn m).modem = m ∧
    (∃ w' cmds, VaraDataConn.Close (mkVaraDataConn m) w ev =
        some (teardownModem m, w', cmds, sendPTT m false) ∧
      w'.slot = [CState.disconnected] ∧ i ∉ w'.opened ∧ j ∉ w'.opened) ∧
    m.lastState = CState.connected ∧ m.cmdConn = some i ∧ m.dataConn = some j := by
  refine ⟨rfl, ?_, hst, hcmd, hdata⟩
  rcases w with ⟨ws, wo, wn⟩
  simp only at hslot hnd
  subst hslot
  have hop : ({ slot := [CState.disconnected], opened := wo, nextSock := wn } : World).opened
      = wo := rfl
  refine ⟨⟨[CState.disconnected], (wo.erase j).erase i, wn⟩,
    (if ev = some CState.disconnected then ["DISCONNECT"] else ["DISCONNECT", "ABORT"]),
    ?_, rfl, ?_, ?_⟩
  · rcases ev with _ | v
    · simp [VaraDataConn.Close, Close, mkVaraDataConn, hst, hcmd, hdata, recv,
        handleDisconnect, publish, disconnectTCP, teardownModem]
    · rcases v <;>
        simp [VaraDataConn.Close, Close, mkVaraDataConn, hst, hcmd, hdata, recv,
          handleDisconnect, publish, disconnectTCP, teardownModem]
  · have h1 : (wo.erase j).Nodup := hnd.erase j
    exact h1.not_mem_erase
  · intro hmem
    have h2 : j ∈ wo.erase j := List.mem_of_mem_erase hmem
    exact (hnd.not_mem_erase) h2

/-- C10 witness. -/
theorem C10_facade_close_frame_witness :
    (mkVaraDataConn (hfConnected "N1CALL")).modem = hfConnected "N1CALL" ∧
    (∃ w' cmds, VaraDataConn.Close (mkVaraDataConn (hfConnected "N1CALL"))
          { slot := [], opened := [1, 0], nextSock := 2 } (some CState.disconnected) =
        some (teardownModem (hfConnected "N1CALL"), w', cmds,
          sendPTT (hfConnected "N1CALL") false) ∧
      w'.slot = [CState.disconnected] ∧ 0 ∉ w'.opened ∧ 1 ∉ w'.opened) ∧
    (hfConnected "N1CALL").lastState = CState.connected ∧
    (hfConnected "N1CALL").cmdConn = some 0 ∧
    (hfConnected "N1CALL").dataConn = some 1 :=
  C10_facade_close_frame (hfConnected "N1CALL") { slot := [], opened := [1, 0], nextSock := 2 }
    (some CState.disconnected) 0 1 (by decide) (by decide) (by decide) (by decide) (by decide)

/-- C8: a line matching no exact entry and none of the recognized prefixes
is ignored: session and shared state unchanged, reader keeps running
(`true`); the dispatcher returns `false` only for an exact
`DISCONNECTED` line; and a subsequent `CONNECTED` line (slot drained)
still drives the state machine to Connected. -/
theorem C8_unknown_line (m : Modem) (w : World) (c : String)
    (h1 : c ≠ "PTT ON") (h2 : c ≠ "PTT OFF") (h3 : c ≠ "BUSY ON") (h4 : c ≠ "BUSY OFF")
    (h5 : c ≠ "OK") (h6 : c ≠ "IAMALIVE") (h7 : c ≠ "PENDING") (h8 : c ≠ "DISCONNECTED")
    (h9 : strStarts c "CONNECTED" = false) (h10 : strStarts c "BUFFER" = false)
    (h11 : strStarts c "REGISTERED" = false) :
    handleCmd m w c = some (m, w, true, []) ∧
    (∀ (c2 : String) (m2 : Modem) (w2 : World) (k : Bool) (p : List Bool),
      handleCmd m w c2 = some (m2, w2, k, p) → k = false → c2 = "DISCONNECTED") ∧
    (w.slot = [] → handleCmd m w "CONNECTED N0CALL" =
      some ({ m with lastState := CState.connected },
        { w with slot := [CState.connected] }, true, [])) := by
  refine ⟨?_, ?_, ?_⟩
  · simp [handleCmd, h1, h2, h3, h4, h5, h6, h7, h8, h9, h10, h11]
  · intro c2 m2 w2 k p hcmd hk
    subst hk
    unfold handleCmd at hcmd
    by_cases g1 : c2 = "PTT ON"
    · rw [if_pos g1] at hcmd
      simp at hcmd
    rw [if_neg g1] at hcmd
    by_cases g2 : c2 = "PTT OFF"
    · rw [if_pos g2] at hcmd
      simp at hcmd
    rw [if_neg g2] at hcmd
    by_cases g3 : c2 = "BUSY ON"
    · rw [if_pos g3] at hcmd
      simp at hcmd
    rw [if_neg g3] at hcmd
    by_cases g4 : c2 = "BUSY OFF"
    · rw [if_pos g4] at hcmd
      simp at hcmd
    rw [if_neg g4] at hcmd
    by_cases g5 : c2 = "OK"
    · rw [if_pos g5] at hcmd
      simp at hcmd
    rw [if_neg g5] at hcmd
    by_cases g6 : c2 = "IAMALIVE"
    · rw [if_pos g6] at hcmd
      simp at hcmd
    rw [if_neg g6] at hcmd
    by_cases g7 : c2 = "PENDING"
    · rw [if_pos g7] at hcmd
      simp at hcmd
    rw [if_neg g7] at hcmd
    by_cases g8 : c2 = "DISCONNECTED"
    · exact g8
    rw [if_neg g8] at hcmd
    by_cases g9 : strStarts c2 "CONNECTED" = true
    · rw [if_pos g9] at hcmd
      split at hcmd
      · cases hcmd
      · simp at hcmd
    rw [if_neg g9] at hcmd
    by_cases g10 : strStarts c2 "BUFFER" = true
    · rw [if_pos g10] at hcmd
      simp at hcmd
    rw [if_neg g10] at hcmd
    by_cases g11 : strStarts c2 "REGISTERED" = true
    · rw [if_pos g11] at hcmd
      simp at hcmd
    rw [if_neg g11] at hcmd
    simp at hcmd
  · intro hs
    rcases w with ⟨ws, wo, wn⟩
    simp only at hs
    subst hs
    rfl

/-- C8 witness. -/
theorem C8_unknown_line_witness :
    handleCmd (hfConnected "N1CALL") { slot := [], opened := [1, 0], nextSock := 2 }
        "FOO BAR" =
      some (hfConnected "N1CALL", { slot := [], opened := [1, 0], nextSock := 2 }, true, []) ∧
    (∀ (c2 : String) (m2 : Modem) (w2 : World) (k : Bool) (p : List Bool),
      handleCmd (hfConnected "N1CALL") { slot := [], opened := [1, 0], nextSock := 2 } c2 =
        some (m2, w2, k, p) → k = false → c2 = "DISCONNECTED") ∧
    (({ slot := [], opened := [1, 0], nextSock := 2 } : World).slot = [] →
      handleCmd (hfConnected "N1CALL") { slot := [], opened := [1, 0], nextSock := 2 }
          "CONNECTED N0CALL" =
        some ({ hfConnected "N1CALL" with lastState := CState.connected },
          { ({ slot := [], opened := [1, 0], nextSock := 2 } : World) with
              slot := [CState.connected] }, true, [])) :=
  C8_unknown_line (hfConnected "N1CALL") { slot := [], opened := [1, 0], nextSock := 2 }
    "FOO BAR" (by decide) (by decide) (by decide) (by decide) (by decide) (by decide)
    (by decide) (by decide) (by decide) (by decide) (by decide)

section InvariantLemmas

theorem handleConnect_conns (m : Modem) (w : World) (q : Modem × World)
    (h : handleConnect m w = some q) :
    q.1.cmdConn = m.cmdConn ∧ q.1.dataConn = m.dataConn := by
  unfold handleConnect at h
  split at h
  · cases h
  · cases h
    exact ⟨rfl, rfl⟩

theorem handleDisconnect_conns (m : Modem) (w : World) (q : Modem × World)
    (h : handleDisconnect m w = some q) :
    q.1.cmdConn = none ∧ q.1.dataConn = none := by
  unfold handleDisconnect at h
  split at h
  · cases h
  · cases h
    exact ⟨rfl, rfl⟩

theorem handleCmd_conns (m : Modem) (w : World) (c : String)
    (r : Modem × World × Bool × List Bool) (h : handleCmd m w c = some r) :
    (r.1.cmdConn = m.cmdConn ∧ r.1.dataConn = m.dataConn) ∨
      (r.1.cmdConn = none ∧ r.1.dataConn = none) := by
  unfold handleCmd at h
  by_cases g1 : c = "PTT ON"
  · rw [if_pos g1] at h
    cases h
    exact Or.inl ⟨rfl, rfl⟩
  rw [if_neg g1] at h
  by_cases g2 : c = "PTT OFF"
  · rw [if_pos g2] at h
    cases h
    exact Or.inl ⟨rfl, rfl⟩
  rw [if_neg g2] at h
  by_cases g3 : c = "BUSY ON"
  · rw [if_pos g3] at h
    cases h
    exact Or.inl ⟨rfl, rfl⟩
  rw [if_neg g3] at h
  by_cases g4 : c = "BUSY OFF"
  · rw [if_pos g4] at h
    cases h
    exact Or.inl ⟨rfl, rfl⟩
  rw [if_neg g4] at h
  by_cases g5 : c = "OK"
  · rw [if_pos g5] at h
    cases h
    exact Or.inl ⟨rfl, rfl⟩
  rw [if_neg g5] at h
  by_cases g6 : c = "IAMALIVE"
  · rw [if_pos g6] at h
    cases h
    exact Or.inl ⟨rfl, rfl⟩
  rw [if_neg g6] at h
  by_cases g7 : c = "PENDING"
  · rw [if_pos g7] at h
    cases h
    exact Or.inl ⟨rfl, rfl⟩
  rw [if_neg g7] at h
  by_cases g8 : c = "DISCONNECTED"
  · rw [if_pos g8] at h
    split at h
    · cases h
    · case _ p hp =>
        cases h
        exact Or.inr (handleDisconnect_conns m w p hp)
  rw [if_neg g8] at h
  by_cases g9 : strStarts c "CONNECTED" = true
  · rw [if_pos g9] at h
    split at h
    · cases h
    · case _ p hp =>
        cases h
        exact Or.inl (handleConnect_conns m w p hp)
  rw [if_neg g9] at h
  by_cases g10 : strStarts c "BUFFER" = true
  · rw [if_pos g10] at h
    cases h
    exact Or.inl ⟨rfl, rfl⟩
  rw [if_neg g10] at h
  by_cases g11 : strStarts c "REGISTERED" = true
  · rw [if_pos g11] at h
    cases h
    exact Or.inl ⟨rfl, rfl⟩
  rw [if_neg g11] at h
  cases h
  exact Or.inl ⟨rfl, rfl⟩

theorem Close_conns (m : Modem) (w : World) (ev : Option CState)
    (r : Modem × World × List String × List Bool) (h : Close m w ev = some r) :
    r.1.cmdConn = none ∧ r.1.dataConn = none := by
  unfold Close at h
  split at h
  · split at h
    · split at h
      · cases h
      · case _ q hq =>
          cases h
          exact handleDisconnect_conns m _ q hq
    · split at h
      · cases h
      · case _ q hq =>
          cases h
          exact handleDisconnect_conns m w q hq
  · split at h
    · cases h
    · case _ q hq =>
        cases h
        exact handleDisconnect_conns m w q hq

theorem DialURL_finish_modem (m : Modem) (w : World) (ev : Option CState)
    (r : Modem × World × Option VaraDataConn) (h : DialURL_finish m w ev = some r) :
    r.1 = { m with dataConn := none } ∨ r.1 = m := by
  unfold DialURL_finish at h
  split at h
  · cases h
  · split at h
    · cases h
      exact Or.inl rfl
    · cases h
      exact Or.inr rfl

theorem Accept_modem (m : Modem) (w : World) (ev : Option CState)
    (r : Modem × World × Option VaraDataConn) (h : Accept m w ev = some r) :
    r.1 = { m with dataConn := none } ∨ r.1 = m := by
  unfold Accept at h
  split at h
  · cases h
  · split at h
    · cases h
      exact Or.inl rfl
    · cases h
      exact Or.inr rfl

theorem DialURL_begin_modem (m : Modem) (w : World) (sc t bw : String) (p : Bool) :
    (DialURL_begin m w sc t bw p).1 = m ∨
      (DialURL_begin m w sc t bw p).1.cmdConn ≠ none := by
  unfold DialURL_begin
  by_cases hsc : sc ≠ m.scheme
  · rw [if_pos hsc]
    exact Or.inl rfl
  · rw [if_neg hsc]
    rcases hsb : setBandwidth bw with ⟨tb, _ | e⟩
    · simp only
      exact Or.inr (start_modem_cmdConn m w)
    · simp only
      exact Or.inr (start_modem_cmdConn m w)

theorem step_connInv (s : Modem × World) (o : Op) (h : connInv s) : connInv (step s o) := by
  rcases s with ⟨m, w⟩
  cases o with
  | startOp =>
    intro _
    exact start_modem_cmdConn m w
  | listenOp =>
    intro _
    exact start_modem_cmdConn m w
  | dialBegin sc t bw p =>
    rcases DialURL_begin_modem m w sc t bw p with hm | hm
    · simp only [step, connInv, hm]
      exact h
    · simp only [step, connInv]
      intro _
      exact hm
  | dialFinish ev =>
    simp only [step]
    rcases hf : DialURL_finish m w ev with _ | r
    · simp only [hf]
      exact h
    · simp only [hf]
      rcases DialURL_finish_modem m w ev r hf with hm | hm <;>
        simp only [connInv, hm] <;> intro hd
      · simp at hd
      · exact h hd
  | acceptOp ev =>
    simp only [step]
    rcases hf : Accept m w ev with _ | r
    · simp only [hf]
      exact h
    · simp only [hf]
      rcases Accept_modem m w ev r hf with hm | hm <;>
        simp only [connInv, hm] <;> intro hd
      · simp at hd
      · exact h hd
  | closeOp ev =>
    simp only [step]
    rcases hf : Close m w ev with _ | r
    · simp only [hf]
      exact h
    · simp only [hf, connInv]
      intro hd
      exact absurd (Close_conns m w ev r hf).2 hd
  | eventLine c =>
    simp only [step]
    by_cases hc : m.cmdConn = none
    · rw [if_pos hc]
      exact h
    · rw [if_neg hc]
      rcases hf : handleCmd m w c with _ | r
      · simp only [hf]
        exact h
      · simp only [hf, connInv]
        rcases handleCmd_conns m w c r hf with ⟨e1, e2⟩ | ⟨e1, e2⟩ <;> intro hd
        · rw [e1]
          rw [e2] at hd
          exact h hd
        · rw [e2] at hd
          simp at hd

theorem run_connInv (s : Modem × World) (ops : List Op) (h : connInv s) :
    connInv (run s ops) := by
  induction ops generalizing s with
  | nil => exact h
  | cons o rest ih => exact ih (step s o) (step_connInv s o h)

end InvariantLemmas

/-- C3 counterexample: the state reached by `start` alone (the first step of
every dial or listen) has a non-null Data Channel handle while the
connection state is still Disconnected, refuting "Data Channel non-null
only when state = connected". -/
theorem C3_counterexample :
    (run (NewModem "vara" "N1CALL", initialWorld) [Op.startOp]).1.dataConn ≠ none ∧
    (run (NewModem "vara" "N1CALL", initialWorld) [Op.startOp]).1.lastState =
      CState.disconnected := by
  decide

/-- C3 (amended): the Data Channel handle can be non-null while the state is
still Disconnected (it is opened by `start`, before any CONNECTED
event).  The handle invariant that does hold at every point of every
operation sequence is: the Data Channel handle is non-null only while
the Command Channel handle is non-null. -/
theorem C3_channel_invariant (scheme myCall : String) (ops : List Op) :
    connInv (run (NewModem scheme myCall, initialWorld) ops) := by
  apply run_connInv
  intro hd
  simp [NewModem] at hd

/-- C3 witness: the invariant evaluated on a concrete operation sequence. -/
theorem C3_channel_invariant_witness :
    connInv (run (NewModem "vara" "N1CALL", initialWorld)
      [Op.startOp, Op.eventLine "CONNECTED N0CALL", Op.closeOp none]) :=
  C3_channel_invariant "vara" "N1CALL"
    [Op.startOp, Op.eventLine "CONNECTED N0CALL", Op.closeOp none]

end PatVara
